import Mathlib

/-!
Verification development for the regul-news-bot pipeline (src/news_bot.py).

Python strings are modelled shallowly as lists of Unicode code points
(`List Nat`); Python byte strings as lists of byte values.  Each definition
embeds the Python function named in its doc comment.  External collaborators
(the MD5 digest from hashlib, network fetches, the sumy summarizer, the
Telegram client, the filesystem) are parameters of the definitions that call
them, so the theorems quantify over their behaviour.
-/

namespace NewsBot

/-- Code points of a string literal, used to write concrete Python strings. -/
def codes (s : String) : List Nat := s.data.map Char.toNat

/-- Unicode lowercasing of one code point as Python's str.lower performs it,
restricted to the ranges the deployment exercises: ASCII letters A-Z,
Cyrillic А-Я (U+0410..U+042F) and Ё (U+0401).  Other code points map to
themselves. -/
def lowerChar (c : Nat) : Nat :=
  if 65 ≤ c ∧ c ≤ 90 then c + 32
  else if 1040 ≤ c ∧ c ≤ 1071 then c + 32
  else if c = 1025 then 1105
  else c

/-- Python str.lower over a whole string. -/
def pyLower (s : List Nat) : List Nat := s.map lowerChar

/-- Whitespace code points removed by Python's str.strip (the common ones:
TAB, LF, VT, FF, CR, SPACE, NEL, NBSP). -/
def isSpaceChar (c : Nat) : Bool :=
  c = 9 || c = 10 || c = 11 || c = 12 || c = 13 || c = 32 || c = 133 || c = 160

/-- Python str.strip(): drop leading and trailing whitespace. -/
def pyStrip (s : List Nat) : List Nat :=
  List.rdropWhile isSpaceChar (s.dropWhile isSpaceChar)

/-- Python's `k in text` on strings: substring containment. -/
def pyIn (k text : List Nat) : Bool := decide (k <:+: text)

/-- Body of the keyword loop of matches_keywords (src/news_bot.py lines
112-117): `k = k.strip().lower()`, empty keywords are skipped, and a
non-empty keyword hits when it is a substring of the lowered text. -/
def keyword_hit (text_low k : List Nat) : Bool :=
  let k2 := pyLower (pyStrip k)
  !k2.isEmpty && pyIn k2 text_low

/-- src/news_bot.py lines 110-118, matches_keywords(text, keywords):
lowercases the text and returns True as soon as one keyword hits. -/
def matches_keywords (text : List Nat) (keywords : List (List Nat)) : Bool :=
  keywords.any (keyword_hit (pyLower text))

/-- UTF-8 encoding of one code point (Python str.encode for one character). -/
def utf8EncodeChar (c : Nat) : List Nat :=
  if c < 128 then [c]
  else if c < 2048 then [192 + c / 64, 128 + c % 64]
  else if c < 65536 then [224 + c / 4096, 128 + c / 64 % 64, 128 + c % 64]
  else [240 + c / 262144, 128 + c / 4096 % 64, 128 + c / 64 % 64, 128 + c % 64]

/-- UTF-8 encoding of a whole string (Python s.encode). -/
def utf8Encode (s : List Nat) : List Nat := (s.map utf8EncodeChar).flatten

/-- src/news_bot.py lines 64-65, md5_text(s): the hex digest of the UTF-8
bytes of s.  The MD5 algorithm itself lives in hashlib, outside the
repository, so it is a parameter `digest` from byte lists to hex strings. -/
def md5_text (digest : List Nat → List Nat) (s : List Nat) : List Nat :=
  digest (utf8Encode s)

/-- One candidate item as built by fetch_rss (title, link, published,
summary), src/news_bot.py lines 80-86. -/
structure Item where
  title : List Nat
  link : List Nat
  summary : List Nat
  published : List Nat
  deriving DecidableEq

/-- src/news_bot.py line 176: `uid = md5_text((title + link)[:500])` —
concatenate first, then truncate to 500 characters, then digest. -/
def item_uid (digest : List Nat → List Nat) (e : Item) : List Nat :=
  md5_text digest ((e.title ++ e.link).take 500)

/-- Modelled from the spec (for the refinement check of C7): the digest of
the UTF-8 bytes of (title + link) truncated to its first 500 units. -/
def fingerprint_spec (digest : List Nat → List Nat) (title link : List Nat) : List Nat :=
  digest (utf8Encode ((title ++ link).take 500))

/-- Python str.split(".") (src/news_bot.py line 196): split on the literal
period character; an empty string yields one empty fragment. -/
def splitDot : List Nat → List (List Nat)
  | [] => [[]]
  | c :: rest =>
    match splitDot rest with
    | [] => [[]]
    | h :: t => if c = 46 then [] :: h :: t else (c :: h) :: t

/-- src/news_bot.py lines 191-198: the summary for an item.  The sumy
LexRank call (summarize_text) is external, so it is the parameter
`summarizeRes`; `none` models the call raising an exception, which the
try/except turns into the naive first-3-period-fragments fallback.  An empty
article text falls back to the truncated snippet or a fixed placeholder. -/
def compute_summary (summarizeRes : List Nat → Option (List Nat))
    (article_text snippet : List Nat) : List Nat :=
  if article_text.isEmpty = false then
    match summarizeRes article_text with
    | some s => s
    | none => List.intercalate (codes ". ") ((splitDot article_text).take 3) ++ codes "..."
  else if snippet.isEmpty = false then snippet.take 300 ++ codes "..."
  else codes "Короткого текста нет."

/-- src/news_bot.py lines 121-130, make_message(item, summary); `now` is the
external datetime.utcnow().isoformat() used when the item has no date. -/
def make_message (now : List Nat) (item : Item) (summary : List Nat) : List Nat :=
  let title := pyStrip item.title
  let link := pyStrip item.link
  let published_str := if item.published.isEmpty then now else item.published
  codes "📰 <b>" ++ title ++ codes "</b>\n\n" ++ codes "📅 " ++ published_str
    ++ codes "\n" ++ codes "🔗 " ++ link ++ codes "\n\n"
    ++ codes "📄 <b>Кратко:</b>\n" ++ summary ++ codes "\n\n"

/-- Python set.add on a set represented as a duplicate-free list. -/
def setAdd (s : List (List Nat)) (x : List Nat) : List (List Nat) :=
  if x ∈ s then s else s ++ [x]

/-- The in-memory state of one run of main (src/news_bot.py lines 143-147):
the loaded processed set, the newly seen set, and the to_notify queue of
(uid, message) pairs. -/
structure RunSt where
  processed : List (List Nat)
  new_processed : List (List Nat)
  to_notify : List (List Nat × List Nat)
  deriving DecidableEq

/-- src/news_bot.py lines 190-202: summarize the fetched article text,
format the message, append it to to_notify and mark the uid newly seen. -/
def enqueue_item (summarizeRes : List Nat → Option (List Nat)) (now : List Nat)
    (st : RunSt) (e : Item) (uid article_text : List Nat) : RunSt :=
  { processed := st.processed
    new_processed := setAdd st.new_processed uid
    to_notify := st.to_notify
      ++ [(uid, make_message now e (compute_summary summarizeRes article_text e.summary))] }

/-- src/news_bot.py lines 171-204, the body of the per-item loop of main:
compute the uid, skip items already processed, match on title+snippet, on a
miss fetch the article body (`fetchArticle`, the external collaborator that
returns the empty string on any failure) and retry the match, discard on a
second miss, otherwise summarize and enqueue. -/
def process_item (digest : List Nat → List Nat) (fetchArticle : List Nat → List Nat)
    (summarizeRes : List Nat → Option (List Nat)) (now : List Nat)
    (keywords : List (List Nat)) (st : RunSt) (e : Item) : RunSt :=
  let uid := item_uid digest e
  if uid ∈ st.processed then st
  else if matches_keywords (pyLower (e.title ++ codes " " ++ e.summary)) keywords then
    enqueue_item summarizeRes now st e uid (fetchArticle e.link)
  else if matches_keywords (fetchArticle e.link) keywords then
    enqueue_item summarizeRes now st e uid (fetchArticle e.link)
  else st

/-- Observable outcome of the notification loop: the uids attempted, those
sent, and those whose delivery raised. -/
structure SendResult where
  attempts : List (List Nat)
  sent : List (List Nat)
  failed : List (List Nat)

/-- Body of the notification loop, src/news_bot.py lines 207-214: one
bot.send_message call (the parameter `deliver`; `Except.error` models the
call raising) wrapped in try/except, so a failure is recorded and the loop
continues. -/
def send_step (deliver : List Nat × List Nat → Except Unit Unit)
    (acc : SendResult) (p : List Nat × List Nat) : SendResult :=
  match deliver p with
  | Except.ok _ => ⟨acc.attempts ++ [p.1], acc.sent ++ [p.1], acc.failed⟩
  | Except.error _ => ⟨acc.attempts ++ [p.1], acc.sent, acc.failed ++ [p.1]⟩

/-- The whole notification loop over the to_notify queue. -/
def send_all (deliver : List Nat × List Nat → Except Unit Unit)
    (queue : List (List Nat × List Nat)) : SendResult :=
  queue.foldl (send_step deliver) ⟨[], [], []⟩

/-- src/news_bot.py line 218: `combined[-2000:]`, the persisted list is the
last 2000 entries of the enumeration of the combined set. -/
def pySave (enum : List (List Nat)) : List (List Nat) :=
  enum.drop (enum.length - 2000)

/-- A list that Python's list(processed.union(new_processed)) (line 217) may
produce: duplicate-free and containing exactly the members of the union.
Python's set type fixes no enumeration order, so every such list is a
possible outcome. -/
def IsSetEnum (enum old new : List (List Nat)) : Prop :=
  enum.Nodup ∧ ∀ x, x ∈ enum ↔ (x ∈ old ∨ x ∈ new)

/-- Modelled from the spec (for the refinement check of C2): the 2000 most
recently inserted fingerprints of an insertion history listed oldest
first — FIFO eviction drops the prefix beyond the bound. -/
def recentBound (h : List (List Nat)) : List (List Nat) :=
  h.drop (h.length - 2000)

/-- Concrete insertion history used to compare Python's save with FIFO
eviction: 2001 distinct fingerprints, oldest first. -/
def histC2 : List (List Nat) := (List.range 2001).map fun n => [n]

/-- The persisted state file, src/news_bot.py line 56: a JSON object with a
"processed" list of fingerprints. -/
structure BotState where
  processed : List (List Nat)
  deriving DecidableEq

/-- src/news_bot.py lines 52-56, load_state(): a missing file yields
`{"processed": []}`; an existing file is handed to json.load, whose parse
failure on corrupt content (modelled as the inner `none`) is not caught and
propagates (`Except.error`). -/
def load_state (file : Option (Option BotState)) : Except Unit BotState :=
  match file with
  | none => Except.ok ⟨[]⟩
  | some none => Except.error ()
  | some (some st) => Except.ok st

/-! Helper lemmas about lowercasing and stripping. -/

theorem lowerChar_idem (c : Nat) : lowerChar (lowerChar c) = lowerChar c := by
  unfold lowerChar
  split_ifs <;> omega

theorem isSpaceChar_eq_false {c : Nat}
    (h : ¬ (c = 9 ∨ c = 10 ∨ c = 11 ∨ c = 12 ∨ c = 13 ∨ c = 32 ∨ c = 133 ∨ c = 160)) :
    isSpaceChar c = false := by
  unfold isSpaceChar
  simp only [Bool.or_eq_false_iff, decide_eq_false_iff_not]
  tauto

theorem space_lowerChar (c : Nat) : isSpaceChar (lowerChar c) = isSpaceChar c := by
  unfold lowerChar
  split_ifs with h1 h2 h3
  · rw [isSpaceChar_eq_false (by omega), isSpaceChar_eq_false (by omega)]
  · rw [isSpaceChar_eq_false (by omega), isSpaceChar_eq_false (by omega)]
  · rw [isSpaceChar_eq_false (by omega), isSpaceChar_eq_false (by omega)]
  · rfl

theorem pyLower_idem (s : List Nat) : pyLower (pyLower s) = pyLower s := by
  unfold pyLower
  rw [List.map_map]
  exact List.map_congr_left fun a _ => lowerChar_idem a

theorem space_comp : (isSpaceChar ∘ lowerChar) = isSpaceChar := funext space_lowerChar

theorem rdropWhile_map_lower (l : List Nat) :
    List.rdropWhile isSpaceChar (l.map lowerChar)
      = (List.rdropWhile isSpaceChar l).map lowerChar := by
  unfold List.rdropWhile
  rw [← List.map_reverse, List.dropWhile_map, space_comp, List.map_reverse]

theorem pyStrip_pyLower (s : List Nat) : pyStrip (pyLower s) = pyLower (pyStrip s) := by
  unfold pyStrip pyLower
  rw [List.dropWhile_map, space_comp, rdropWhile_map_lower]

theorem dropWhile_pyStrip (s : List Nat) :
    List.dropWhile isSpaceChar (pyStrip s) = pyStrip s := by
  unfold pyStrip
  have hdd : List.dropWhile isSpaceChar (List.dropWhile isSpaceChar s)
      = List.dropWhile isSpaceChar s := List.dropWhile_idempotent isSpaceChar s
  generalize hds : List.dropWhile isSpaceChar s = d at hdd
  rcases hr : List.rdropWhile isSpaceChar d with _ | ⟨a, r⟩
  · rfl
  · obtain ⟨t, ht⟩ := List.rdropWhile_prefix isSpaceChar d
    rw [hr] at ht
    have hpa : ¬ (isSpaceChar a = true) := by
      intro hpa'
      rw [← ht, List.cons_append, List.dropWhile_cons_of_pos hpa'] at hdd
      have hle := (List.dropWhile_sublist (l := r ++ t) (p := isSpaceChar)).length_le
      rw [hdd] at hle
      simp at hle
    exact List.dropWhile_cons_of_neg hpa

theorem pyStrip_idem (s : List Nat) : pyStrip (pyStrip s) = pyStrip s := by
  calc pyStrip (pyStrip s)
      = List.rdropWhile isSpaceChar (List.dropWhile isSpaceChar (pyStrip s)) := rfl
    _ = List.rdropWhile isSpaceChar (pyStrip s) := by rw [dropWhile_pyStrip]
    _ = List.rdropWhile isSpaceChar
          (List.rdropWhile isSpaceChar (List.dropWhile isSpaceChar s)) := rfl
    _ = List.rdropWhile isSpaceChar (List.dropWhile isSpaceChar s) :=
        List.rdropWhile_idempotent isSpaceChar _
    _ = pyStrip s := rfl

theorem keyword_normal (k : List Nat) :
    pyLower (pyStrip (pyLower (pyStrip k))) = pyLower (pyStrip k) := by
  rw [pyStrip_pyLower, pyStrip_idem, pyLower_idem]

theorem keyword_hit_normal (tl k : List Nat) :
    keyword_hit tl (pyLower (pyStrip k)) = keyword_hit tl k := by
  unfold keyword_hit
  rw [keyword_normal]

theorem send_all_attempts_aux (deliver : List Nat × List Nat → Except Unit Unit)
    (q : List (List Nat × List Nat)) :
    ∀ acc, (q.foldl (send_step deliver) acc).attempts = acc.attempts ++ q.map Prod.fst := by
  induction q with
  | nil => intro acc; simp
  | cons p t ih =>
    intro acc
    rw [List.foldl_cons, ih]
    cases hd : deliver p <;> simp [send_step, hd]


/-! Claim theorems. -/

/-- C1, counterexample: the spec says matches("банкомат сломан", ["банк"])
is false because the lemmas differ, but matches_keywords does substring
containment and "банк" is a substring of "банкомат", so the call returns
true. -/
theorem C1_matches_lemma_cex :
    matches_keywords (codes "банкомат сломан") [codes "банк"] = true := by decide

/-- C1 (amended): matches_keywords(text, keywords) returns true iff some
keyword, stripped and lowercased and non-empty, occurs as a contiguous
substring of the lowercased text; in particular both spec examples,
matches("банки сообщили", ["банк"]) and matches("банкомат сломан",
["банк"]), return true. -/
theorem C1_matches_substring :
    (∀ text ks, matches_keywords text ks = true ↔
        ∃ k ∈ ks, pyLower (pyStrip k) ≠ [] ∧ pyLower (pyStrip k) <:+: pyLower text) ∧
    matches_keywords (codes "банки сообщили") [codes "банк"] = true ∧
    matches_keywords (codes "банкомат сломан") [codes "банк"] = true := by
  refine ⟨fun text ks => ?_, by decide, by decide⟩
  unfold matches_keywords keyword_hit
  simp only [List.any_eq_true, Bool.and_eq_true, Bool.not_eq_true', pyIn,
    decide_eq_true_eq, List.isEmpty_eq_false]

/-- C8: the matcher fails closed — empty text never matches and an empty
keyword list never matches. -/
theorem C8_fails_closed :
    (∀ ks, matches_keywords [] ks = false) ∧
    (∀ text, matches_keywords text [] = false) := by
  constructor
  · intro ks
    unfold matches_keywords keyword_hit
    rw [List.any_eq_false]
    intro k _
    rcases h : pyLower (pyStrip k) with _ | ⟨a, t⟩
    · simp [h]
    · simp [h, pyIn, pyLower, List.infix_nil]
  · intro text
    rfl

/-- C10: keyword matching is insensitive to keyword letter-case and
surrounding whitespace — replacing each keyword by its stripped lowercased
form does not change the result — and a keyword that strips to the empty
string never causes a match. -/
theorem C10_trim_insensitive (text : List Nat) (ks : List (List Nat)) :
    matches_keywords text ks
        = matches_keywords text (ks.map fun k => pyLower (pyStrip k)) ∧
    ∀ k ks2, pyStrip k = [] →
      matches_keywords text (k :: ks2) = matches_keywords text ks2 := by
  constructor
  · unfold matches_keywords
    rw [List.any_map]
    induction ks with
    | nil => rfl
    | cons k t ih =>
      simp only [List.any_cons, ih, Function.comp_apply, keyword_hit_normal]
  · intro k ks2 h
    unfold matches_keywords
    rw [List.any_cons]
    have hk : keyword_hit (pyLower text) k = false := by
      unfold keyword_hit
      rw [h]
      rfl
    rw [hk]
    simp

/-- C10 witness: concrete instance with a padded upper-case keyword and an
empty keyword. -/
theorem C10_trim_insensitive_witness :
    matches_keywords (codes "новая финансовая платформа") [codes " ФИНАНСОВАЯ "]
        = matches_keywords (codes "новая финансовая платформа")
            [pyLower (pyStrip (codes " ФИНАНСОВАЯ "))] ∧
    matches_keywords (codes "любой текст") [codes "  ", codes "текст"]
        = matches_keywords (codes "любой текст") [codes "текст"] :=
  ⟨(C10_trim_insensitive (codes "новая финансовая платформа") [codes " ФИНАНСОВАЯ "]).1,
   (C10_trim_insensitive (codes "любой текст") [codes "  "]).2
     (codes "  ") [codes "текст"] (by decide)⟩

/-- C7: item_uid concatenates title and link, truncates to the first 500
characters and digests the UTF-8 bytes (agreeing with the spec-side
fingerprint), is a pure function of (title, link), and depends only on the
truncation of the concatenation. -/
theorem C7_fingerprint (digest : List Nat → List Nat) (t l sn pb : List Nat) :
    item_uid digest ⟨t, l, sn, pb⟩ = fingerprint_spec digest t l ∧
    (∀ t2 l2 sn2 pb2, t = t2 → l = l2 →
      item_uid digest ⟨t, l, sn, pb⟩ = item_uid digest ⟨t2, l2, sn2, pb2⟩) ∧
    (∀ t2 l2 sn2 pb2, (t ++ l).take 500 = (t2 ++ l2).take 500 →
      item_uid digest ⟨t, l, sn, pb⟩ = item_uid digest ⟨t2, l2, sn2, pb2⟩) := by
  refine ⟨rfl, ?_, ?_⟩
  · intro t2 l2 sn2 pb2 h1 h2
    subst h1
    subst h2
    rfl
  · intro t2 l2 sn2 pb2 h
    exact congrArg (fun z => digest (utf8Encode z)) h

/-- C7 witness: the truncation-dependency conjunct at a concrete input where
title+link agree after concatenation but split differently. -/
theorem C7_fingerprint_witness :
    item_uid (fun b => b) ⟨[49], [50], [], []⟩
      = item_uid (fun b => b) ⟨[49, 50], [], [51], [52]⟩ :=
  (C7_fingerprint (fun b => b) [49] [50] [] []).2.2 [49, 50] [] [51] [52] (by decide)

/-- C6: when the article text is non-empty and the LexRank step fails, the
summary is the first 3 period-delimited fragments of the text joined with
". " followed by "...". -/
theorem C6_summarizer_fallback (summarizeRes : List Nat → Option (List Nat))
    (article_text snippet : List Nat) (h1 : article_text ≠ [])
    (h2 : summarizeRes article_text = none) :
    compute_summary summarizeRes article_text snippet
      = List.intercalate (codes ". ") ((splitDot article_text).take 3) ++ codes "..." := by
  rcases article_text with _ | ⟨a, t⟩
  · exact absurd rfl h1
  · simp [compute_summary, h2]

/-- C6 witness: the fallback at a concrete failing summarizer and text. -/
theorem C6_summarizer_fallback_witness :
    compute_summary (fun _ => none) (codes "a.b.c.d") []
      = List.intercalate (codes ". ") ((splitDot (codes "a.b.c.d")).take 3) ++ codes "..." :=
  C6_summarizer_fallback (fun _ => none) (codes "a.b.c.d") [] (by decide) rfl

/-- C4: an item whose fingerprint is already in the loaded processed set is
skipped entirely — the run state (queue of messages, newly-seen set,
processed set) is unchanged, so nothing is enqueued or delivered for it. -/
theorem C4_skip_processed (digest : List Nat → List Nat)
    (fetchArticle : List Nat → List Nat) (summarizeRes : List Nat → Option (List Nat))
    (now : List Nat) (keywords : List (List Nat)) (st : RunSt) (e : Item)
    (h : item_uid digest e ∈ st.processed) :
    process_item digest fetchArticle summarizeRes now keywords st e = st ∧
    (process_item digest fetchArticle summarizeRes now keywords st e).to_notify
      = st.to_notify ∧
    (process_item digest fetchArticle summarizeRes now keywords st e).new_processed
      = st.new_processed := by
  have hmain : process_item digest fetchArticle summarizeRes now keywords st e = st := by
    unfold process_item
    simp [h]
  exact ⟨hmain, by rw [hmain], by rw [hmain]⟩

/-- C4 witness: a concrete already-processed item leaves the state as is. -/
theorem C4_skip_processed_witness :
    process_item (fun b => b) (fun _ => []) (fun _ => none) [] []
        ⟨[[]], [], []⟩ ⟨[], [], [], []⟩ = ⟨[[]], [], []⟩ :=
  (C4_skip_processed (fun b => b) (fun _ => []) (fun _ => none) [] []
    ⟨[[]], [], []⟩ ⟨[], [], [], []⟩ (by decide)).1

/-- C9: an unseen item that matches neither on title+snippet nor on the
fetched article body is discarded without any state change, and its
fingerprint (absent from both sets) ends up in no possible persisted list,
so the skip is non-permanent. -/
theorem C9_unmatched_discarded (digest : List Nat → List Nat)
    (fetchArticle : List Nat → List Nat) (summarizeRes : List Nat → Option (List Nat))
    (now : List Nat) (keywords : List (List Nat)) (st : RunSt) (e : Item)
    (h1 : item_uid digest e ∉ st.processed)
    (h2 : matches_keywords (pyLower (e.title ++ codes " " ++ e.summary)) keywords = false)
    (h3 : matches_keywords (fetchArticle e.link) keywords = false) :
    process_item digest fetchArticle summarizeRes now keywords st e = st ∧
    (item_uid digest e ∉ st.new_processed → ∀ enum,
      IsSetEnum enum st.processed st.new_processed →
        item_uid digest e ∉ pySave enum) := by
  constructor
  · unfold process_item
    simp only [h2, h3]
    simp [h1]
  · intro hn enum hse hin
    have hmem : item_uid digest e ∈ enum := List.drop_subset _ _ hin
    rcases (hse.2 _).mp hmem with h | h
    · exact h1 h
    · exact hn h

/-- C9 witness: a concrete unmatched item is discarded and stays out of the
persisted list. -/
theorem C9_unmatched_discarded_witness :
    process_item (fun b => b) (fun _ => []) (fun _ => none) [] [[1073]]
        ⟨[], [], []⟩ ⟨[1072], [], [], []⟩ = ⟨[], [], []⟩ ∧
    item_uid (fun b => b) ⟨[1072], [], [], []⟩ ∉ pySave [] := by
  have h := C9_unmatched_discarded (fun b => b) (fun _ => []) (fun _ => none) [] [[1073]]
      ⟨[], [], []⟩ ⟨[1072], [], [], []⟩ (by decide) (by decide) (by decide)
  exact ⟨h.1, h.2 (by decide) [] ⟨List.nodup_nil, by simp⟩⟩

/-- C5: the notification loop attempts delivery of every enqueued message in
order regardless of failures of earlier ones (a failure is caught and
recorded), and a fingerprint in the newly-seen set — including one whose
delivery failed, since the loop never touches that set — is a member of
every possible enumeration of the combined set handed to save. -/
theorem C5_delivery_isolated (deliver : List Nat × List Nat → Except Unit Unit)
    (queue : List (List Nat × List Nat)) (old new : List (List Nat)) :
    (send_all deliver queue).attempts = queue.map Prod.fst ∧
    ∀ uid ∈ new, ∀ enum, IsSetEnum enum old new → uid ∈ enum := by
  constructor
  · unfold send_all
    rw [send_all_attempts_aux]
    rfl
  · intro uid hu enum h
    exact (h.2 uid).mpr (Or.inr hu)

/-- C5 witness: a single message whose delivery always fails is still
attempted, and its fingerprint is in the enumeration of the combined set. -/
theorem C5_delivery_isolated_witness :
    (send_all (fun _ => Except.error ()) [([5], [7])]).attempts = [[5]] ∧
    [5] ∈ ([[5]] : List (List Nat)) := by
  have h := C5_delivery_isolated (fun _ => Except.error ()) [([5], [7])] [] [[5]]
  exact ⟨h.1, h.2 [5] (by decide) [[5]] ⟨by decide, by intro x; simp⟩⟩

/-- C2, counterexample: Python's list(set.union) fixes no order, so the
trimmed list need not be the 2000 most recently inserted fingerprints; a
valid enumeration of a 2001-element union listed newest first makes save
keep the oldest 2000 and drop the newest, the opposite of FIFO eviction. -/
theorem C2_fifo_cex :
    IsSetEnum histC2.reverse histC2 [] ∧
    pySave histC2.reverse ≠ recentBound histC2 := by
  have hlen : histC2.length = 2001 := by simp [histC2]
  have hlenr : histC2.reverse.length = 2001 := by simp [histC2]
  constructor
  · refine ⟨List.nodup_reverse.mpr ((List.nodup_range 2001).map fun a b hab => ?_), fun x => by simp⟩
    simpa using hab
  · intro heq
    have e1 : (2001 : Nat) - 2000 = 1 := by norm_num
    have h1 : (pySave histC2.reverse)[0]? = some [1999] := by
      unfold pySave
      rw [hlenr, e1, List.getElem?_drop,
        List.getElem?_reverse (by rw [hlen]; norm_num), hlen]
      show histC2[1999]? = some [1999]
      unfold histC2
      rw [List.getElem?_map, List.getElem?_range (by norm_num)]
      rfl
    have h2 : (recentBound histC2)[0]? = some [1] := by
      unfold recentBound
      rw [hlen, e1, List.getElem?_drop]
      show histC2[1]? = some [1]
      unfold histC2
      rw [List.getElem?_map, List.getElem?_range (by norm_num)]
      rfl
    rw [heq, h2] at h1
    exact absurd h1 (by decide)

/-- C2 (amended): after save the persisted list holds at most 2000
fingerprints, each drawn from the union of the old and newly-seen sets, and
the whole union is kept when it fits the bound; which entries are dropped
beyond the bound depends on the set enumeration order, not insertion
order. -/
theorem C2_save_bounded (old new enum : List (List Nat)) (h : IsSetEnum enum old new) :
    (pySave enum).length ≤ 2000 ∧
    (∀ x ∈ pySave enum, x ∈ old ∨ x ∈ new) ∧
    (enum.length ≤ 2000 → ∀ x, x ∈ pySave enum ↔ (x ∈ old ∨ x ∈ new)) := by
  refine ⟨?_, ?_, ?_⟩
  · unfold pySave
    rw [List.length_drop]
    omega
  · intro x hx
    exact (h.2 x).mp (List.drop_subset _ _ hx)
  · intro hle x
    unfold pySave
    have h0 : enum.length - 2000 = 0 := by omega
    rw [h0, List.drop_zero]
    exact h.2 x

/-- C2 witness: a two-element union fits the bound and is kept in full. -/
theorem C2_save_bounded_witness :
    (pySave [[1], [2]]).length ≤ 2000 ∧
    ([1] ∈ pySave [[1], [2]] ↔ ([1] ∈ [[1]] ∨ [1] ∈ [[2]])) := by
  have h := C2_save_bounded [[1]] [[2]] [[1], [2]] ⟨by decide, fun x => by simp⟩
  exact ⟨h.1, h.2.2 (by decide) [1]⟩

/-- C3, counterexample: an existing state file whose contents json.load
cannot parse makes load_state propagate the error instead of returning the
empty state. -/
theorem C3_load_corrupt_cex :
    load_state (some none) = Except.error () ∧
    load_state (some none) ≠ Except.ok ⟨[]⟩ :=
  ⟨rfl, fun h => nomatch h⟩

/-- C3 (amended): load_state returns the empty state when the file is
missing and the parsed state when it parses, but a corrupt file raises —
the error propagates out of load_state rather than yielding the empty
state. -/
theorem C3_load_behaviour :
    load_state none = Except.ok ⟨[]⟩ ∧
    (∀ st, load_state (some (some st)) = Except.ok st) ∧
    ∀ s, load_state (some none) ≠ Except.ok s :=
  ⟨rfl, fun _ => rfl, fun _ h => nomatch h⟩

/-- C3 witness: the corrupt-file branch differs from a concrete loaded
state. -/
theorem C3_load_behaviour_witness :
    load_state (some none) ≠ Except.ok ⟨[[42]]⟩ :=
  C3_load_behaviour.2.2 ⟨[[42]]⟩

end NewsBot
